import Mathlib

/-!
Verification of the Inventory System Audit Tool
(`src/audit_logs/audit_system.py`) against its specification.

The Python script is a single-process, file-backed audit runner.  We give a
shallow embedding: the on-disk state (session JSON document, checkpoint
counter file, checkpoint snapshot files) becomes an explicit record
`FSState`; every operation of the script becomes a pure state-passing
function; HTTP responses become an explicit `HttpResult` argument.
Wall-clock timestamps and fresh UUIDs are passed in as opaque string
parameters.  Python `round(x, 1)` is modelled on `ℚ` via `pyRound1`;
no claim below depends on tie-breaking behaviour of the rounding.
-/

/-- Error-severity levels accepted by `PageTester.update_error_count`
(the only keys present in `error_summary` besides `total`). -/
inductive ErrLevel where
  | critical
  | high
  | medium
  | low
deriving DecidableEq, Repr

/-- The `error_summary` object of the session document. -/
structure ErrorSummary where
  critical : Nat
  high : Nat
  medium : Nat
  low : Nat
  total : Nat
deriving DecidableEq, Repr

/-- The `current_operation` object of the session document. -/
structure CurrentOp where
  page : Option String
  phase : String
  step : String
  started_at : String
deriving DecidableEq, Repr

/-- The `progress` object of the session document. -/
structure Progress where
  pages_completed : List String
  pages_in_progress : List String
  pages_remaining : List String
  total_pages : Nat
  completion_percentage : ℚ
deriving DecidableEq, Repr

/-- One record of `checkpoint_history` (and of `last_checkpoint`).
The initialization record carries no `page`/`phase` keys, macro and micro
records do; hence the `Option String` fields. -/
structure CheckpointInfo where
  id : String
  timestamp : String
  ckType : String
  page : Option String
  phase : Option String
  status : String
deriving DecidableEq, Repr

/-- The `recovery_metadata` object of the session document. -/
structure RecoveryMeta where
  browser_state : String
  session_storage : String
  network_state : String
  last_successful_action : String
deriving DecidableEq, Repr

/-- The session document `session_state/current_session.json`. -/
structure Session where
  session_id : String
  audit_start_time : String
  last_checkpoint : Option CheckpointInfo
  current_operation : CurrentOp
  progress : Progress
  checkpoint_history : List CheckpointInfo
  error_summary : ErrorSummary
  recovery_metadata : RecoveryMeta
deriving DecidableEq, Repr

/-- The persisted state the script manipulates: the session document, the
counter file `session_state/checkpoint_counter.txt` (`none` = file absent),
and the snapshot files under `checkpoints/` (name, content). -/
structure FSState where
  session : Session
  counter_file : Option Nat
  checkpoint_files : List (String × Session)
deriving DecidableEq, Repr

/-- Static page-registry entry (`InventoryAuditSystem.pages` values). -/
structure PageInfo where
  url : String
  name : String
  category : String
  risk_level : String
deriving DecidableEq, Repr

/-- The static page registry `InventoryAuditSystem.pages`, in declaration
order. -/
def pagesRegistry : List (String × PageInfo) :=
  [ ("home", ⟨"http://localhost:3000/", "Home", "core", "low"⟩),
    ("dashboard", ⟨"http://localhost:3000/dashboard", "Dashboard", "core", "medium"⟩),
    ("products", ⟨"http://localhost:3000/products", "Products", "core", "high"⟩),
    ("image-cataloging", ⟨"http://localhost:3000/image-cataloging", "AI Image Cataloging", "core", "high"⟩),
    ("scan", ⟨"http://localhost:3000/scan", "Scan Barcode", "core", "high"⟩),
    ("orders", ⟨"http://localhost:3000/orders", "Orders", "core", "medium"⟩),
    ("customers", ⟨"http://localhost:3000/customers", "Customers", "core", "medium"⟩),
    ("reports", ⟨"http://localhost:3000/reports", "Reports", "core", "medium"⟩),
    ("inventory-alerts", ⟨"http://localhost:3000/inventory/alerts", "Inventory Alerts", "core", "medium"⟩),
    ("ai-assistant", ⟨"http://localhost:3000/ai-assistant", "AI Assistant", "ai", "high"⟩),
    ("ai-assistant-custom-agents", ⟨"http://localhost:3000/ai-assistant/custom-agents", "Custom AI Agents", "ai", "high"⟩),
    ("ai-assistant-settings", ⟨"http://localhost:3000/ai-assistant/settings", "AI Settings", "ai", "high"⟩),
    ("settings", ⟨"http://localhost:3000/settings", "Settings", "system", "medium"⟩) ]

/-- The registry key set, in registry order (`list(self.pages.keys())`). -/
def registryKeys : List String := pagesRegistry.map Prod.fst

/-- Python `round(x, 1)` modelled on `ℚ` (round to one decimal place).
Python uses round-half-to-even on binary floats; no claim in this
development depends on tie behaviour, only on determinism and on exact
values away from ties. -/
def pyRound1 (q : ℚ) : ℚ := (round (q * 10) : ℤ) / 10

/-- Python `f-string` padding `{n:03d}` for non-negative `n`. -/
def pad3 (n : Nat) : String :=
  if n < 10 then "00" ++ toString n
  else if n < 100 then "0" ++ toString n
  else toString n

/-- `CheckpointManager.get_next_checkpoint_counter` (lines 51-61): read the
counter file (defaulting to 1 when absent), write back `counter + 1`,
return the value read.  Input/output is the counter-file content. -/
def get_next_checkpoint_counter (cf : Option Nat) : Nat × Option Nat :=
  let counter := match cf with
    | some v => v
    | none => 1
  (counter, some (counter + 1))

/-- `PageTester.update_error_count` (lines 147-157): increment one severity
bucket and the running total of the session's `error_summary`. -/
def update_error_count (s : Session) (lvl : ErrLevel) : Session :=
  let e := s.error_summary
  let e' := match lvl with
    | .critical => { e with critical := e.critical + 1, total := e.total + 1 }
    | .high => { e with high := e.high + 1, total := e.total + 1 }
    | .medium => { e with medium := e.medium + 1, total := e.total + 1 }
    | .low => { e with low := e.low + 1, total := e.total + 1 }
  { s with error_summary := e' }

/-- `CheckpointManager.create_checkpoint` (lines 63-108): draw the next
counter, build the macro checkpoint id `CP_{counter:03d}_{PAGE}_COMPLETE`,
set `last_checkpoint`, append to `checkpoint_history`; on status SUCCESS
move the page from `pages_remaining` to `pages_completed` (guarded by
membership tests, `list.remove` removes the first occurrence) and recompute
`completion_percentage`; finally write the session file and a standalone
snapshot file.  Returns the checkpoint id and the new state. -/
def create_checkpoint (page_name status ts : String) (fs : FSState) : String × FSState :=
  let r := get_next_checkpoint_counter fs.counter_file
  let counter := r.1
  let checkpoint_id := "CP_" ++ pad3 counter ++ "_" ++ page_name.toUpper ++ "_COMPLETE"
  let info : CheckpointInfo :=
    { id := checkpoint_id, timestamp := ts, ckType := "MACRO",
      page := some page_name, phase := some "complete", status := status }
  let s := fs.session
  let s := { s with last_checkpoint := some info,
                    checkpoint_history := s.checkpoint_history ++ [info] }
  let s :=
    if status = "SUCCESS" then
      let completed :=
        if page_name ∈ s.progress.pages_completed then s.progress.pages_completed
        else s.progress.pages_completed ++ [page_name]
      let remaining :=
        if page_name ∈ s.progress.pages_remaining then s.progress.pages_remaining.erase page_name
        else s.progress.pages_remaining
      let pct := pyRound1 ((completed.length * 100 : ℚ) / (s.progress.total_pages : ℚ))
      { s with progress :=
          { s.progress with pages_completed := completed,
                            pages_remaining := remaining,
                            completion_percentage := pct } }
    else s
  (checkpoint_id,
   { session := s, counter_file := r.2,
     checkpoint_files := fs.checkpoint_files ++ [(checkpoint_id, s)] })

/-- `CheckpointManager.create_micro_checkpoint` (lines 110-138): draw the
next counter, build the micro checkpoint id
`CP_{counter:03d}_{PAGE}_{PHASE}`, append the record to
`checkpoint_history`, save the session.  No snapshot file is written and
no other session field is touched. -/
def create_micro_checkpoint (page_name phase status ts : String) (fs : FSState) : String × FSState :=
  let r := get_next_checkpoint_counter fs.counter_file
  let counter := r.1
  let checkpoint_id := "CP_" ++ pad3 counter ++ "_" ++ page_name.toUpper ++ "_" ++ phase.toUpper
  let info : CheckpointInfo :=
    { id := checkpoint_id, timestamp := ts, ckType := "MICRO",
      page := some page_name, phase := some phase, status := status }
  let s := fs.session
  let s := { s with checkpoint_history := s.checkpoint_history ++ [info] }
  (checkpoint_id,
   { session := s, counter_file := r.2, checkpoint_files := fs.checkpoint_files })

/-- `InventoryAuditSystem.initialize_session` (lines 536-604): write a
fresh session document and reset the counter file to `1`.  `sid` is the
fresh UUID and `ts` the start timestamp; `prev` is whatever the
`checkpoints/` directory already contains (the script never clears it). -/
def initialize_session (sid ts : String) (prev : List (String × Session)) : FSState :=
  { session :=
      { session_id := sid,
        audit_start_time := ts,
        last_checkpoint := none,
        current_operation :=
          { page := none, phase := "initialization", step := "setup", started_at := ts },
        progress :=
          { pages_completed := [],
            pages_in_progress := [],
            pages_remaining := registryKeys,
            total_pages := registryKeys.length,
            completion_percentage := 0 },
        checkpoint_history :=
          [ { id := "CP_000_INIT", timestamp := ts, ckType := "INITIALIZATION",
              page := none, phase := none, status := "SUCCESS" } ],
        error_summary := { critical := 0, high := 0, medium := 0, low := 0, total := 0 },
        recovery_metadata :=
          { browser_state := "initialized", session_storage := "clean",
            network_state := "unknown", last_successful_action := "session_initialization" } },
    counter_file := some 1,
    checkpoint_files := prev }

/-- One checkpoint-creating event, or a process restart (which leaves the
persisted counter file untouched). -/
inductive CkOp where
  | macroCk (page status ts : String)
  | microCk (page phase status ts : String)
  | restart
deriving DecidableEq, Repr

/-- The sequence of counter values drawn by `get_next_checkpoint_counter`
along a sequence of checkpoint creations (these are exactly the values
embedded into the checkpoint identifiers of `create_checkpoint` and
`create_micro_checkpoint`). -/
def ckCounters (fs : FSState) : List CkOp → List Nat
  | [] => []
  | .restart :: rest => ckCounters fs rest
  | .macroCk p st ts :: rest =>
      (get_next_checkpoint_counter fs.counter_file).1 ::
        ckCounters (create_checkpoint p st ts fs).2 rest
  | .microCk p ph st ts :: rest =>
      (get_next_checkpoint_counter fs.counter_file).1 ::
        ckCounters (create_micro_checkpoint p ph st ts fs).2 rest

/-- The value the counter file yields on its next read. -/
def counterBase (cf : Option Nat) : Nat :=
  match cf with
  | some v => v
  | none => 1

/-- Number of checkpoint-creating events (restarts excluded). -/
def numCks : List CkOp → Nat
  | [] => 0
  | .restart :: rest => numCks rest
  | .macroCk _ _ _ :: rest => numCks rest + 1
  | .microCk _ _ _ _ :: rest => numCks rest + 1

theorem create_checkpoint_counter_file (p st ts : String) (fs : FSState) :
    (create_checkpoint p st ts fs).2.counter_file
      = some (counterBase fs.counter_file + 1) := by
  cases h : fs.counter_file <;>
    simp [create_checkpoint, get_next_checkpoint_counter, counterBase, h]

theorem create_micro_checkpoint_counter_file (p ph st ts : String) (fs : FSState) :
    (create_micro_checkpoint p ph st ts fs).2.counter_file
      = some (counterBase fs.counter_file + 1) := by
  cases h : fs.counter_file <;>
    simp [create_micro_checkpoint, get_next_checkpoint_counter, counterBase, h]

theorem ckCounters_eq_range' (ops : List CkOp) :
    ∀ fs : FSState, ckCounters fs ops = List.range' (counterBase fs.counter_file) (numCks ops) := by
  induction ops with
  | nil => intro fs; simp [ckCounters, numCks]
  | cons op rest ih =>
    intro fs
    cases op with
    | restart => simpa [ckCounters, numCks] using ih fs
    | macroCk p st ts =>
        have hcf := create_checkpoint_counter_file p st ts fs
        have hrec := ih (create_checkpoint p st ts fs).2
        rw [hcf] at hrec
        cases h : fs.counter_file <;>
          simp [ckCounters, numCks, get_next_checkpoint_counter, List.range'_succ,
                hrec, counterBase, h]
    | microCk p ph st ts =>
        have hcf := create_micro_checkpoint_counter_file p ph st ts fs
        have hrec := ih (create_micro_checkpoint p ph st ts fs).2
        rw [hcf] at hrec
        cases h : fs.counter_file <;>
          simp [ckCounters, numCks, get_next_checkpoint_counter, List.range'_succ,
                hrec, counterBase, h]

/-- Claim C1: along any finite sequence of checkpoint creations (macro and
micro interleaved arbitrarily, with process restarts that keep the counter
file), the counter values drawn by `get_next_checkpoint_counter` — the
values embedded in the checkpoint identifiers — are strictly increasing,
so no counter value is ever reused. -/
theorem checkpoint_counters_strictly_increasing (fs : FSState) (ops : List CkOp) :
    (ckCounters fs ops).Pairwise (· < ·) := by
  rw [ckCounters_eq_range' ops fs]
  exact List.pairwise_lt_range' _ _

/-- Claim C3: immediately after `initialize_session`, `pages_remaining` is
the full registry key set in registry order, `pages_completed` is empty,
and `completion_percentage` is 0.0. -/
theorem initialize_session_progress (sid ts : String) (prev : List (String × Session)) :
    (initialize_session sid ts prev).session.progress.pages_remaining = registryKeys
    ∧ (initialize_session sid ts prev).session.progress.pages_completed = []
    ∧ (initialize_session sid ts prev).session.progress.completion_percentage = 0 :=
  ⟨rfl, rfl, rfl⟩

/-- Health-score computation of `InventoryAuditSystem.generate_final_report`
(lines 814-821): start at 100, subtract the severity-weighted error counts
in order, floor at 0.  Python ints are modelled as `ℤ`. -/
def healthScore (e : ErrorSummary) : ℤ :=
  let h : ℤ := 100
  let h := h - e.critical * 25
  let h := h - e.high * 10
  let h := h - e.medium * 5
  let h := h - e.low * 1
  max 0 h

/-- Claim C6: for every error summary the health score equals
`max 0 (100 - 25*critical - 10*high - 5*medium - 1*low)`; in particular
for critical=1, high=2, medium=0, low=3 it equals 52. -/
theorem healthScore_formula :
    (∀ c h m l t : Nat,
        healthScore ⟨c, h, m, l, t⟩
          = max 0 (100 - 25 * (c : ℤ) - 10 * (h : ℤ) - 5 * (m : ℤ) - 1 * (l : ℤ)))
    ∧ healthScore ⟨1, 2, 0, 3, 6⟩ = 52 := by
  constructor
  · intro c h m l t
    simp only [healthScore]
    congr 1
    ring
  · decide

/-- Claim C9: `create_micro_checkpoint` appends exactly one record to
`checkpoint_history` (tagged MICRO, with the given page, phase and status)
and writes no snapshot file; `last_checkpoint`, `progress`,
`error_summary`, `current_operation`, `session_id`, `audit_start_time`
and `recovery_metadata` are all unchanged. -/
theorem create_micro_checkpoint_frame (page phase status ts : String) (fs : FSState) :
    (create_micro_checkpoint page phase status ts fs).2.session.checkpoint_history
      = fs.session.checkpoint_history
        ++ [{ id := "CP_" ++ pad3 (get_next_checkpoint_counter fs.counter_file).1
                      ++ "_" ++ page.toUpper ++ "_" ++ phase.toUpper,
              timestamp := ts, ckType := "MICRO",
              page := some page, phase := some phase, status := status }]
    ∧ (create_micro_checkpoint page phase status ts fs).2.checkpoint_files
        = fs.checkpoint_files
    ∧ (create_micro_checkpoint page phase status ts fs).2.session.last_checkpoint
        = fs.session.last_checkpoint
    ∧ (create_micro_checkpoint page phase status ts fs).2.session.progress
        = fs.session.progress
    ∧ (create_micro_checkpoint page phase status ts fs).2.session.error_summary
        = fs.session.error_summary
    ∧ (create_micro_checkpoint page phase status ts fs).2.session.current_operation
        = fs.session.current_operation
    ∧ (create_micro_checkpoint page phase status ts fs).2.session.session_id
        = fs.session.session_id
    ∧ (create_micro_checkpoint page phase status ts fs).2.session.audit_start_time
        = fs.session.audit_start_time
    ∧ (create_micro_checkpoint page phase status ts fs).2.session.recovery_metadata
        = fs.session.recovery_metadata :=
  ⟨rfl, rfl, rfl, rfl, rfl, rfl, rfl, rfl, rfl⟩

/-- States reachable from `initialize_session` by any interleaving of
`update_error_count`, `create_checkpoint` (any page name) and
`create_micro_checkpoint`. -/
inductive Reachable : FSState → Prop where
  | init (sid ts : String) (prev : List (String × Session)) :
      Reachable (initialize_session sid ts prev)
  | err {fs} (h : Reachable fs) (lvl : ErrLevel) :
      Reachable { fs with session := update_error_count fs.session lvl }
  | macroCk {fs} (h : Reachable fs) (page status ts : String) :
      Reachable (create_checkpoint page status ts fs).2
  | microCk {fs} (h : Reachable fs) (page phase status ts : String) :
      Reachable (create_micro_checkpoint page phase status ts fs).2

theorem create_checkpoint_error_summary (p st ts : String) (fs : FSState) :
    (create_checkpoint p st ts fs).2.session.error_summary
      = fs.session.error_summary := by
  simp only [create_checkpoint]
  split <;> rfl

theorem create_micro_checkpoint_error_summary (p ph st ts : String) (fs : FSState) :
    (create_micro_checkpoint p ph st ts fs).2.session.error_summary
      = fs.session.error_summary := rfl

/-- Claim C10: in every state reachable from `initialize_session` by
`update_error_count`, `create_checkpoint` and `create_micro_checkpoint`,
`error_summary.total` equals the sum of the four severity buckets. -/
theorem error_summary_total_invariant (fs : FSState) (h : Reachable fs) :
    fs.session.error_summary.total
      = fs.session.error_summary.critical + fs.session.error_summary.high
        + fs.session.error_summary.medium + fs.session.error_summary.low := by
  induction h with
  | init sid ts prev => rfl
  | err h lvl ih => cases lvl <;> simp [update_error_count] <;> omega
  | macroCk h page status ts ih =>
      rw [create_checkpoint_error_summary]; exact ih
  | microCk h page phase status ts ih =>
      rw [create_micro_checkpoint_error_summary]; exact ih

/-- Concrete instance of `error_summary_total_invariant` at a freshly
initialized session. -/
theorem error_summary_total_invariant_witness :
    (initialize_session "sid0" "ts0" []).session.error_summary.total
      = (initialize_session "sid0" "ts0" []).session.error_summary.critical
        + (initialize_session "sid0" "ts0" []).session.error_summary.high
        + (initialize_session "sid0" "ts0" []).session.error_summary.medium
        + (initialize_session "sid0" "ts0" []).session.error_summary.low :=
  error_summary_total_invariant _ (Reachable.init "sid0" "ts0" [])

/-- States reachable from `initialize_session` by `update_error_count`,
`create_micro_checkpoint`, and `create_checkpoint` restricted to page
names from the registry (the orchestrator only ever passes registry
pages). -/
inductive ReachableR : FSState → Prop where
  | init (sid ts : String) (prev : List (String × Session)) :
      ReachableR (initialize_session sid ts prev)
  | err {fs} (h : ReachableR fs) (lvl : ErrLevel) :
      ReachableR { fs with session := update_error_count fs.session lvl }
  | macroCk {fs} (h : ReachableR fs) (page status ts : String)
      (hp : page ∈ registryKeys) :
      ReachableR (create_checkpoint page status ts fs).2
  | microCk {fs} (h : ReachableR fs) (page phase status ts : String) :
      ReachableR (create_micro_checkpoint page phase status ts fs).2

/-- One SUCCESS-checkpoint partition step on plain lists: the update of
`pages_completed`/`pages_remaining` performed by `create_checkpoint`
preserves nodup-ness, disjointness, and coverage of the key set. -/
theorem partition_step (keys C R : List String) (page : String)
    (hC : C.Nodup) (hR : R.Nodup)
    (hdisj : ∀ p, p ∈ C → p ∉ R)
    (huni : ∀ p, p ∈ C ∨ p ∈ R ↔ p ∈ keys)
    (hp : page ∈ keys) :
    (if page ∈ C then C else C ++ [page]).Nodup
    ∧ (if page ∈ R then R.erase page else R).Nodup
    ∧ (∀ p, p ∈ (if page ∈ C then C else C ++ [page])
          → p ∉ (if page ∈ R then R.erase page else R))
    ∧ (∀ p, p ∈ (if page ∈ C then C else C ++ [page])
          ∨ p ∈ (if page ∈ R then R.erase page else R) ↔ p ∈ keys) := by
  by_cases hc : page ∈ C
  · have hnr : page ∉ R := hdisj page hc
    simp only [if_pos hc, if_neg hnr]
    exact ⟨hC, hR, hdisj, huni⟩
  · have hr : page ∈ R := by
      rcases (huni page).2 hp with h | h
      · exact absurd h hc
      · exact h
    simp only [if_neg hc, if_pos hr]
    refine ⟨?_, hR.erase page, ?_, ?_⟩
    · simp [List.nodup_append, hC, hc]
    · intro p hpmem
      rcases List.mem_append.1 hpmem with hcc | hpp
      · intro hmem
        exact hdisj p hcc (List.mem_of_mem_erase hmem)
      · have : p = page := by simpa using hpp
        subst this
        exact hR.not_mem_erase
    · intro p
      constructor
      · rintro (hcc | hre)
        · rcases List.mem_append.1 hcc with h | h
          · exact (huni p).1 (Or.inl h)
          · have : p = page := by simpa using h
            subst this; exact hp
        · exact (huni p).1 (Or.inr (List.mem_of_mem_erase hre))
      · intro hk
        rcases (huni p).2 hk with h | h
        · exact Or.inl (List.mem_append.2 (Or.inl h))
        · by_cases hpe : p = page
          · subst hpe
            exact Or.inl (List.mem_append.2 (Or.inr (by simp)))
          · exact Or.inr ((List.mem_erase_of_ne hpe).2 h)

theorem update_error_count_progress (s : Session) (lvl : ErrLevel) :
    (update_error_count s lvl).progress = s.progress := by
  cases lvl <;> rfl

theorem create_micro_checkpoint_progress (p ph st ts : String) (fs : FSState) :
    (create_micro_checkpoint p ph st ts fs).2.session.progress
      = fs.session.progress := rfl

theorem create_checkpoint_progress_success (p ts : String) (fs : FSState) :
    (create_checkpoint p "SUCCESS" ts fs).2.session.progress.pages_completed
      = (if p ∈ fs.session.progress.pages_completed
          then fs.session.progress.pages_completed
          else fs.session.progress.pages_completed ++ [p])
    ∧ (create_checkpoint p "SUCCESS" ts fs).2.session.progress.pages_remaining
      = (if p ∈ fs.session.progress.pages_remaining
          then fs.session.progress.pages_remaining.erase p
          else fs.session.progress.pages_remaining) := by
  simp [create_checkpoint]

theorem create_checkpoint_progress_other (p st ts : String) (fs : FSState)
    (hst : st ≠ "SUCCESS") :
    (create_checkpoint p st ts fs).2.session.progress
      = fs.session.progress := by
  simp [create_checkpoint, hst]

theorem registryKeys_nodup : registryKeys.Nodup := by decide

/-- Strengthened partition invariant carried through the induction. -/
theorem reachableR_partition_nodup (fs : FSState) (h : ReachableR fs) :
    fs.session.progress.pages_completed.Nodup
    ∧ fs.session.progress.pages_remaining.Nodup
    ∧ (∀ p, p ∈ fs.session.progress.pages_completed
          → p ∉ fs.session.progress.pages_remaining)
    ∧ (∀ p, p ∈ fs.session.progress.pages_completed
          ∨ p ∈ fs.session.progress.pages_remaining ↔ p ∈ registryKeys) := by
  induction h with
  | init sid ts prev =>
      refine ⟨by simp [initialize_session], registryKeys_nodup, ?_, ?_⟩
      · intro p hp
        simp [initialize_session] at hp
      · intro p
        simp [initialize_session]
  | err h lvl ih =>
      simpa [update_error_count_progress] using ih
  | macroCk h page status ts hp ih =>
      by_cases hst : status = "SUCCESS"
      · subst hst
        obtain ⟨hcomp, hrem⟩ := create_checkpoint_progress_success page ts _
        rw [hcomp, hrem]
        exact partition_step registryKeys _ _ page ih.1 ih.2.1 ih.2.2.1 ih.2.2.2 hp
      · rw [create_checkpoint_progress_other page status ts _ hst]
        exact ih
  | microCk h page phase status ts ih =>
      simpa [create_micro_checkpoint_progress] using ih

/-- Claim C2: in every state reachable from `initialize_session` by
`create_checkpoint` (registry pages, any status),
`create_micro_checkpoint` and `update_error_count`, the lists
`pages_completed` and `pages_remaining` are disjoint and together cover
exactly the registry key set. -/
theorem pages_partition (fs : FSState) (h : ReachableR fs) :
    (∀ p, p ∈ fs.session.progress.pages_completed
        → p ∉ fs.session.progress.pages_remaining)
    ∧ (∀ p, p ∈ fs.session.progress.pages_completed
        ∨ p ∈ fs.session.progress.pages_remaining ↔ p ∈ registryKeys) :=
  ⟨(reachableR_partition_nodup fs h).2.2.1, (reachableR_partition_nodup fs h).2.2.2⟩

/-- Concrete instance of `pages_partition` at a freshly initialized
session. -/
theorem pages_partition_witness :
    (∀ p, p ∈ (initialize_session "s0" "t0" []).session.progress.pages_completed
        → p ∉ (initialize_session "s0" "t0" []).session.progress.pages_remaining)
    ∧ (∀ p, p ∈ (initialize_session "s0" "t0" []).session.progress.pages_completed
        ∨ p ∈ (initialize_session "s0" "t0" []).session.progress.pages_remaining
        ↔ p ∈ registryKeys) :=
  pages_partition _ (ReachableR.init "s0" "t0" [])

theorem create_checkpoint_total_pages (p st ts : String) (fs : FSState) :
    (create_checkpoint p st ts fs).2.session.progress.total_pages
      = fs.session.progress.total_pages := by
  simp only [create_checkpoint]
  split <;> rfl

theorem create_checkpoint_pct_success (p ts : String) (fs : FSState) :
    (create_checkpoint p "SUCCESS" ts fs).2.session.progress.completion_percentage
      = pyRound1 (((if p ∈ fs.session.progress.pages_completed
                    then fs.session.progress.pages_completed
                    else fs.session.progress.pages_completed ++ [p]).length * 100 : ℚ)
                  / (fs.session.progress.total_pages : ℚ)) := by
  simp [create_checkpoint]

/-- Claim C4: a SUCCESS macro checkpoint moves the page from
`pages_remaining` to `pages_completed`, and the partition update is
idempotent: a second SUCCESS checkpoint for the same page leaves the page
in `pages_completed` exactly once, out of `pages_remaining`, with
`completion_percentage` unchanged. -/
theorem create_checkpoint_success_idempotent
    (page ts ts' : String) (fs : FSState)
    (hmem : page ∈ fs.session.progress.pages_remaining)
    (hnc : page ∉ fs.session.progress.pages_completed)
    (hnd : fs.session.progress.pages_remaining.Nodup) :
    page ∈ (create_checkpoint page "SUCCESS" ts fs).2.session.progress.pages_completed
    ∧ page ∉ (create_checkpoint page "SUCCESS" ts fs).2.session.progress.pages_remaining
    ∧ ((create_checkpoint page "SUCCESS" ts'
          (create_checkpoint page "SUCCESS" ts fs).2).2.session.progress.pages_completed.count page
        = 1)
    ∧ page ∉ (create_checkpoint page "SUCCESS" ts'
          (create_checkpoint page "SUCCESS" ts fs).2).2.session.progress.pages_remaining
    ∧ (create_checkpoint page "SUCCESS" ts'
          (create_checkpoint page "SUCCESS" ts fs).2).2.session.progress.completion_percentage
        = (create_checkpoint page "SUCCESS" ts fs).2.session.progress.completion_percentage := by
  obtain ⟨hcomp1, hrem1⟩ := create_checkpoint_progress_success page ts fs
  rw [if_neg hnc] at hcomp1
  rw [if_pos hmem] at hrem1
  have hmem1 : page ∈ (create_checkpoint page "SUCCESS" ts fs).2.session.progress.pages_completed := by
    rw [hcomp1]; simp
  have hnr1 : page ∉ (create_checkpoint page "SUCCESS" ts fs).2.session.progress.pages_remaining := by
    rw [hrem1]; exact hnd.not_mem_erase
  obtain ⟨hcomp2, hrem2⟩ :=
    create_checkpoint_progress_success page ts' (create_checkpoint page "SUCCESS" ts fs).2
  rw [if_pos hmem1] at hcomp2
  rw [if_neg hnr1] at hrem2
  refine ⟨hmem1, hnr1, ?_, ?_, ?_⟩
  · rw [hcomp2, hcomp1]
    simp [List.count_append, List.count_eq_zero.2 hnc]
  · rw [hrem2]; exact hnr1
  · rw [create_checkpoint_pct_success page ts' _, if_pos hmem1,
        create_checkpoint_total_pages, hcomp1,
        create_checkpoint_pct_success page ts fs, if_neg hnc]

/-- Concrete instance of `create_checkpoint_success_idempotent`: page
`home` checked off twice from a freshly initialized session. -/
theorem create_checkpoint_success_idempotent_witness :
    "home" ∈ (create_checkpoint "home" "SUCCESS" "t1"
        (initialize_session "s0" "t0" [])).2.session.progress.pages_completed
    ∧ "home" ∉ (create_checkpoint "home" "SUCCESS" "t1"
        (initialize_session "s0" "t0" [])).2.session.progress.pages_remaining
    ∧ ((create_checkpoint "home" "SUCCESS" "t2"
          (create_checkpoint "home" "SUCCESS" "t1"
            (initialize_session "s0" "t0" [])).2).2.session.progress.pages_completed.count "home"
        = 1)
    ∧ "home" ∉ (create_checkpoint "home" "SUCCESS" "t2"
          (create_checkpoint "home" "SUCCESS" "t1"
            (initialize_session "s0" "t0" [])).2).2.session.progress.pages_remaining
    ∧ (create_checkpoint "home" "SUCCESS" "t2"
          (create_checkpoint "home" "SUCCESS" "t1"
            (initialize_session "s0" "t0" [])).2).2.session.progress.completion_percentage
        = (create_checkpoint "home" "SUCCESS" "t1"
            (initialize_session "s0" "t0" [])).2.session.progress.completion_percentage :=
  create_checkpoint_success_idempotent "home" "t1" "t2" (initialize_session "s0" "t0" [])
    (by decide) (by decide) (by decide)

/-- Result of one `requests.get` call: a response (status code, elapsed
milliseconds as computed by `int(elapsed.total_seconds()*1000)`, body), or
a `requests.RequestException` with its message. -/
inductive HttpResult where
  | ok (status_code : Nat) (elapsed_ms : Nat) (body : String)
  | err (msg : String)
deriving DecidableEq, Repr

/-- One entry of a phase's `test_results` list. -/
structure TestResult where
  test : String
  status : String
  details : String
deriving DecidableEq, Repr

/-- Python substring test `needle in hay` on character lists. -/
def containsSub (needle : List Char) : List Char → Bool
  | [] => needle.isEmpty
  | c :: t => needle.isPrefixOf (c :: t) || containsSub needle t

/-- Python `needle in hay` on strings. -/
def strContains (hay needle : String) : Bool :=
  containsSub needle.toList hay.toList

/-- Fuel-driven worker for `countSub`; fuel `hay.length` suffices for a
non-empty needle since every step consumes at least one character. -/
def countSubGo (needle : List Char) : Nat → List Char → Nat
  | 0, _ => 0
  | _ + 1, [] => 0
  | fuel + 1, c :: t =>
      if needle.isPrefixOf (c :: t) then
        countSubGo needle fuel ((c :: t).drop needle.length) + 1
      else
        countSubGo needle fuel t

/-- Python `hay.count(needle)`: number of non-overlapping occurrences,
scanning left to right (all uses in the script have non-empty needles). -/
def countSub (hay needle : String) : Nat :=
  countSubGo needle.toList hay.toList.length hay.toList

/-- The per-response classification of `PageTester.test_page_accessibility`
(lines 175-231): the `test_results` batch, the `update_error_count` calls
made (in execution order), and the returned boolean
(`not any FAIL`; `False` on a network error). -/
def accessibilityChecks (resp : HttpResult) : List TestResult × List ErrLevel × Bool :=
  match resp with
  | .err e => ([⟨"network", "FAIL", e⟩], [.critical], false)
  | .ok code ms body =>
      let hs :=
        if code = 200 then
          (([⟨"http_status", "PASS", toString code⟩] : List TestResult), ([] : List ErrLevel))
        else ([⟨"http_status", "FAIL", toString code⟩], [.high])
      let rt :=
        if ms < 3000 then
          (([⟨"response_time", "PASS", toString ms ++ "ms"⟩] : List TestResult), ([] : List ErrLevel))
        else if ms < 5000 then
          ([⟨"response_time", "WARN", toString ms ++ "ms"⟩], [.medium])
        else ([⟨"response_time", "FAIL", toString ms ++ "ms"⟩], [.high])
      let cl :=
        if body.length > 1000 then
          (([⟨"content_length", "PASS", toString body.length ++ "bytes"⟩] : List TestResult),
           ([] : List ErrLevel))
        else ([⟨"content_length", "WARN", toString body.length ++ "bytes"⟩], [.low])
      let results := hs.1 ++ rt.1 ++ cl.1
      (results, hs.2 ++ rt.2 ++ cl.2, !results.any (fun r => r.status == "FAIL"))

/-- `PageTester.test_page_accessibility` as a session transformer. -/
def test_page_accessibility (resp : HttpResult) (s : Session) :
    List TestResult × Session × Bool :=
  let c := accessibilityChecks resp
  (c.1, c.2.1.foldl update_error_count s, c.2.2)

/-- The six navigation markers searched for by
`PageTester.test_page_navigation` (lines 244-251). -/
def navTerms : List String := ["nav", "menu", "sidebar", "header", "dashboard", "products"]

/-- The per-response classification of `PageTester.test_page_navigation`
(lines 233-286): per-marker results, the overall result keyed on the
number of markers found (≥4 PASS, ≥2 WARN(+medium), else FAIL(+high)),
and the returned boolean `nav_pass_count >= 2`. -/
def navigationChecks (resp : HttpResult) : List TestResult × List ErrLevel × Bool :=
  match resp with
  | .err e => ([⟨"network", "FAIL", e⟩], [.high], false)
  | .ok _ _ body =>
      let content := body.toLower
      let perTerm := navTerms.map (fun term =>
        if strContains content term then (⟨"nav_" ++ term, "PASS", "found"⟩ : TestResult)
        else ⟨"nav_" ++ term, "WARN", "missing"⟩)
      let navPassCount := (navTerms.filter (fun term => strContains content term)).length
      let overall :=
        if navPassCount ≥ 4 then
          ((⟨"navigation_overall", "PASS", toString navPassCount ++ "/6"⟩ : TestResult),
           ([] : List ErrLevel))
        else if navPassCount ≥ 2 then
          (⟨"navigation_overall", "WARN", toString navPassCount ++ "/6"⟩, [.medium])
        else (⟨"navigation_overall", "FAIL", toString navPassCount ++ "/6"⟩, [.high])
      (perTerm ++ [overall.1], overall.2, decide (navPassCount ≥ 2))

/-- `PageTester.test_page_navigation` as a session transformer. -/
def test_page_navigation (resp : HttpResult) (s : Session) :
    List TestResult × Session × Bool :=
  let c := navigationChecks resp
  (c.1, c.2.1.foldl update_error_count s, c.2.2)

/-- `PageTester.test_page_specific_functionality` (lines 352-403): results
and error increments of the page-keyed extra checks. -/
def pageSpecificChecks (page_name content : String) : List TestResult × List ErrLevel :=
  if page_name = "dashboard" then
    let c1 :=
      if strContains content "card" || strContains content "widget"
          || strContains content "dashboard" then
        ((⟨"dashboard_cards", "PASS", "found"⟩ : TestResult), ([] : List ErrLevel))
      else (⟨"dashboard_cards", "WARN", "missing"⟩, [.medium])
    let c2 :=
      if strContains content "total" || strContains content "count"
          || strContains content "metric" || strContains content "statistic" then
        ((⟨"dashboard_metrics", "PASS", "found"⟩ : TestResult), ([] : List ErrLevel))
      else (⟨"dashboard_metrics", "WARN", "missing"⟩, [.medium])
    ([c1.1, c2.1], c1.2 ++ c2.2)
  else if page_name = "products" then
    let c :=
      if strContains content "product" || strContains content "item"
          || strContains content "inventory" then
        ((⟨"products_content", "PASS", "found"⟩ : TestResult), ([] : List ErrLevel))
      else (⟨"products_content", "WARN", "missing"⟩, [.medium])
    ([c.1], c.2)
  else if page_name = "scan" then
    let c :=
      if strContains content "barcode" || strContains content "camera"
          || strContains content "scan" then
        ((⟨"scan_barcode", "PASS", "found"⟩ : TestResult), ([] : List ErrLevel))
      else (⟨"scan_barcode", "FAIL", "missing"⟩, [.high])
    ([c.1], c.2)
  else if strContains page_name "ai-assistant" then
    let c :=
      if strContains content "ai" || strContains content "assistant"
          || strContains content "agent" || strContains content "artificial" then
        ((⟨"ai_content", "PASS", "found"⟩ : TestResult), ([] : List ErrLevel))
      else (⟨"ai_content", "FAIL", "missing"⟩, [.high])
    ([c.1], c.2)
  else ([], [])

/-- The per-response classification of `PageTester.test_page_functionality`
(lines 288-350): JavaScript, CSS, forms and buttons checks followed by the
page-specific checks; returned boolean is `not any FAIL`. -/
def functionalityChecks (page_name : String) (resp : HttpResult) :
    List TestResult × List ErrLevel × Bool :=
  match resp with
  | .err e => ([⟨"network", "FAIL", e⟩], [.high], false)
  | .ok _ _ body =>
      let content := body.toLower
      let js :=
        if strContains content "<script" then
          ((⟨"javascript", "PASS", "scripts_found"⟩ : TestResult), ([] : List ErrLevel))
        else (⟨"javascript", "WARN", "no_scripts"⟩, [.low])
      let css :=
        if strContains content "stylesheet" || strContains content "<style" then
          ((⟨"css", "PASS", "stylesheets_found"⟩ : TestResult), ([] : List ErrLevel))
        else (⟨"css", "FAIL", "no_stylesheets"⟩, [.medium])
      let formCount := countSub content "<form"
      let forms :=
        if formCount > 0 then
          ((⟨"forms", "PASS", toString formCount ++ "_forms"⟩ : TestResult), ([] : List ErrLevel))
        else (⟨"forms", "INFO", "no_forms"⟩, [])
      let buttonCount := countSub content "<button" + countSub content "type=\"button\""
          + countSub content "type=\"submit\""
      let buttons :=
        if buttonCount > 0 then
          ((⟨"buttons", "PASS", toString buttonCount ++ "_buttons"⟩ : TestResult),
           ([] : List ErrLevel))
        else (⟨"buttons", "WARN", "no_buttons"⟩, [.low])
      let ps := pageSpecificChecks page_name content
      let results := [js.1, css.1, forms.1, buttons.1] ++ ps.1
      (results, js.2 ++ css.2 ++ forms.2 ++ buttons.2 ++ ps.2,
       !results.any (fun r => r.status == "FAIL"))

/-- `PageTester.test_page_functionality` as a session transformer. -/
def test_page_functionality (page_name : String) (resp : HttpResult) (s : Session) :
    List TestResult × Session × Bool :=
  let c := functionalityChecks page_name resp
  (c.1, c.2.1.foldl update_error_count s, c.2.2)

/-- The per-response classification of `PageTester.test_error_handling`
(lines 405-445): the synthesized-invalid-route check, the error-content
scan of the main page, and the unconditional `True` return value. -/
def errorHandlingChecks (resp404 respMain : HttpResult) :
    List TestResult × List ErrLevel × Bool :=
  let p1 :=
    match resp404 with
    | .ok code _ _ =>
        if code = 404 then
          ((⟨"404_handling", "PASS", "proper_404"⟩ : TestResult), ([] : List ErrLevel))
        else (⟨"404_handling", "WARN", "status_" ++ toString code⟩, [.low])
    | .err _ => (⟨"404_handling", "INFO", "connection_error"⟩, [])
  let p2 :=
    match respMain with
    | .ok _ _ body =>
        let content := body.toLower
        if strContains content "error" || strContains content "exception"
            || strContains content "boundary" then
          ((⟨"error_boundaries", "INFO", "content_found"⟩ : TestResult), ([] : List ErrLevel))
        else (⟨"error_boundaries", "PASS", "no_errors"⟩, [])
    | .err e => (⟨"error_boundaries", "WARN", e⟩, [])
  ([p1.1, p2.1], p1.2 ++ p2.2, true)

/-- `PageTester.test_error_handling` as a session transformer. -/
def test_error_handling (resp404 respMain : HttpResult) (s : Session) :
    List TestResult × Session × Bool :=
  let c := errorHandlingChecks resp404 respMain
  (c.1, c.2.1.foldl update_error_count s, c.2.2)

/-- The five HTTP responses a single-page audit consumes: one `GET` per
phase (accessibility, navigation, functionality) and two for the
error-handling phase (invalid route, then main page). -/
structure PageEnv where
  accResp : HttpResult
  navResp : HttpResult
  funcResp : HttpResult
  err404Resp : HttpResult
  errMainResp : HttpResult
deriving DecidableEq, Repr

/-- Result of `InventoryAuditSystem.audit_page` on a known page: final
state, the `overall_status` string, and the `phase_results` list. -/
structure AuditOut where
  fs : FSState
  overall : String
  phase_results : List String
deriving DecidableEq, Repr

/-- Body of `InventoryAuditSystem.audit_page` (lines 620-705) for a page
that is in the registry: set `current_operation`, run the four phases with
start/complete micro checkpoints, downgrade `overall_status` to FAILED on
accessibility or functionality failure, create the macro checkpoint.
(The page-summary markdown file is presentation-only I/O and not
modelled.) -/
def audit_page_known (env : PageEnv) (page_name ts : String) (fs : FSState) : AuditOut :=
  let s0 := { fs.session with current_operation :=
      { page := some page_name, phase := "starting", step := "initialization",
        started_at := ts } }
  let fsA : FSState := { fs with session := s0 }
  let fsB := (create_micro_checkpoint page_name "accessibility_start" "IN_PROGRESS" ts fsA).2
  let t1 := test_page_accessibility env.accResp fsB.session
  let accOk := t1.2.2
  let fsC := (create_micro_checkpoint page_name "accessibility_complete"
      (if accOk then "SUCCESS" else "FAILED") ts { fsB with session := t1.2.1 }).2
  let pr1 := [if accOk then "accessibility:PASS" else "accessibility:FAIL"]
  let ov1 := if accOk then "SUCCESS" else "FAILED"
  let fsD := (create_micro_checkpoint page_name "navigation_start" "IN_PROGRESS" ts fsC).2
  let t2 := test_page_navigation env.navResp fsD.session
  let navOk := t2.2.2
  let fsE := (create_micro_checkpoint page_name "navigation_complete"
      (if navOk then "SUCCESS" else "FAILED") ts { fsD with session := t2.2.1 }).2
  let pr2 := pr1 ++ [if navOk then "navigation:PASS" else "navigation:FAIL"]
  let fsF := (create_micro_checkpoint page_name "functionality_start" "IN_PROGRESS" ts fsE).2
  let t3 := test_page_functionality page_name env.funcResp fsF.session
  let funcOk := t3.2.2
  let fsG := (create_micro_checkpoint page_name "functionality_complete"
      (if funcOk then "SUCCESS" else "FAILED") ts { fsF with session := t3.2.1 }).2
  let pr3 := pr2 ++ [if funcOk then "functionality:PASS" else "functionality:FAIL"]
  let ov3 := if funcOk then ov1 else "FAILED"
  let fsH := (create_micro_checkpoint page_name "error_handling_start" "IN_PROGRESS" ts fsG).2
  let t4 := test_error_handling env.err404Resp env.errMainResp fsH.session
  let errOk := t4.2.2
  let fsI := (create_micro_checkpoint page_name "error_handling_complete"
      (if errOk then "SUCCESS" else "WARNING") ts { fsH with session := t4.2.1 }).2
  let pr4 := pr3 ++ [if errOk then "error_handling:PASS" else "error_handling:WARN"]
  let fsJ := (create_checkpoint page_name ov3 ts fsI).2
  { fs := fsJ, overall := ov3, phase_results := pr4 }

/-- `InventoryAuditSystem.audit_page`: unknown pages return `False`
immediately with no state change; known pages run the audit body and
return whether the overall status is SUCCESS. -/
def audit_page (env : PageEnv) (page_name ts : String) (fs : FSState) : FSState × Bool :=
  if page_name ∈ registryKeys then
    let o := audit_page_known env page_name ts fs
    (o.fs, o.overall == "SUCCESS")
  else (fs, false)

theorem audit_page_known_overall (env : PageEnv) (page_name ts : String) (fs : FSState) :
    (audit_page_known env page_name ts fs).overall
      = (if (functionalityChecks page_name env.funcResp).2.2
          then (if (accessibilityChecks env.accResp).2.2 then "SUCCESS" else "FAILED")
          else "FAILED") := rfl

/-- Claim C5: the overall page status is SUCCESS exactly when both the
accessibility phase and the functionality phase return pass; the
navigation and error-handling phase outcomes never flip it.  The second
part restates it for the boolean `audit_page` returns on a registry
page. -/
theorem audit_page_success_iff :
    (∀ (env : PageEnv) (page_name ts : String) (fs : FSState),
        (audit_page_known env page_name ts fs).overall = "SUCCESS"
          ↔ (test_page_accessibility env.accResp fs.session).2.2 = true
            ∧ (test_page_functionality page_name env.funcResp fs.session).2.2 = true)
    ∧ (∀ (env : PageEnv) (page_name ts : String) (fs : FSState),
        page_name ∈ registryKeys →
          (audit_page env page_name ts fs).2
            = ((test_page_accessibility env.accResp fs.session).2.2
               && (test_page_functionality page_name env.funcResp fs.session).2.2)) := by
  have key : ∀ (env : PageEnv) (page_name ts : String) (fs : FSState),
      (audit_page_known env page_name ts fs).overall = "SUCCESS"
        ↔ (test_page_accessibility env.accResp fs.session).2.2 = true
          ∧ (test_page_functionality page_name env.funcResp fs.session).2.2 = true := by
    intro env page_name ts fs
    rw [audit_page_known_overall]
    have h1 : (test_page_accessibility env.accResp fs.session).2.2
        = (accessibilityChecks env.accResp).2.2 := rfl
    have h2 : (test_page_functionality page_name env.funcResp fs.session).2.2
        = (functionalityChecks page_name env.funcResp).2.2 := rfl
    rw [h1, h2]
    cases (accessibilityChecks env.accResp).2.2 <;>
      cases (functionalityChecks page_name env.funcResp).2.2 <;> simp
  refine ⟨key, ?_⟩
  intro env page_name ts fs hp
  have hiff := key env page_name ts fs
  simp only [audit_page, if_pos hp]
  cases hA : (test_page_accessibility env.accResp fs.session).2.2 <;>
    cases hB : (test_page_functionality page_name env.funcResp fs.session).2.2 <;>
    simp_all

/-- Claim C7: the three accessibility sub-checks classify per the fixed
thresholds (status 200, 3000/5000 ms, 1000 bytes) with the matching
severity increments, and a 200-status, 500 ms, 5000-byte response yields
three PASSes and leaves `error_summary` untouched. -/
theorem accessibility_thresholds :
    (∀ (code ms : Nat) (body : String) (s : Session),
        ((test_page_accessibility (.ok code ms body) s).1.map (fun r => (r.test, r.status))
          = [("http_status", if code = 200 then "PASS" else "FAIL"),
             ("response_time", if ms < 3000 then "PASS" else if ms < 5000 then "WARN" else "FAIL"),
             ("content_length", if body.length > 1000 then "PASS" else "WARN")])
        ∧ (test_page_accessibility (.ok code ms body) s).2.1.error_summary.critical
            = s.error_summary.critical
        ∧ (test_page_accessibility (.ok code ms body) s).2.1.error_summary.high
            = s.error_summary.high + (if code = 200 then 0 else 1) + (if ms < 5000 then 0 else 1)
        ∧ (test_page_accessibility (.ok code ms body) s).2.1.error_summary.medium
            = s.error_summary.medium + (if ms < 3000 then 0 else if ms < 5000 then 1 else 0)
        ∧ (test_page_accessibility (.ok code ms body) s).2.1.error_summary.low
            = s.error_summary.low + (if body.length > 1000 then 0 else 1))
    ∧ (∀ (body : String) (s : Session), body.length = 5000 →
        ((test_page_accessibility (.ok 200 500 body) s).1.map (fun r => r.status)
            = ["PASS", "PASS", "PASS"])
        ∧ (test_page_accessibility (.ok 200 500 body) s).2.1.error_summary
            = s.error_summary) := by
  constructor
  · intro code ms body s
    simp only [test_page_accessibility, accessibilityChecks]
    split_ifs <;> simp [update_error_count] <;> omega
  · intro body s h
    have hb : body.length > 1000 := by omega
    simp [test_page_accessibility, accessibilityChecks, hb]

/-- Concrete instance of `accessibility_thresholds` on a 5000-character
body. -/
theorem accessibility_thresholds_witness :
    ((test_page_accessibility (.ok 200 500 (String.mk (List.replicate 5000 'x')))
        (initialize_session "s0" "t0" []).session).1.map (fun r => r.status)
      = ["PASS", "PASS", "PASS"])
    ∧ (test_page_accessibility (.ok 200 500 (String.mk (List.replicate 5000 'x')))
        (initialize_session "s0" "t0" []).session).2.1.error_summary
      = (initialize_session "s0" "t0" []).session.error_summary :=
  accessibility_thresholds.2 _ _
    (show (List.replicate 5000 'x').length = 5000 by rw [List.length_replicate])

theorem update_error_count_history (s : Session) (lvl : ErrLevel) :
    (update_error_count s lvl).checkpoint_history = s.checkpoint_history := by
  cases lvl <;> rfl

theorem foldl_update_error_count_history (es : List ErrLevel) (s : Session) :
    (es.foldl update_error_count s).checkpoint_history = s.checkpoint_history := by
  induction es generalizing s with
  | nil => rfl
  | cons e t ih => rw [List.foldl_cons, ih, update_error_count_history]

theorem test_page_accessibility_history (r : HttpResult) (s : Session) :
    (test_page_accessibility r s).2.1.checkpoint_history = s.checkpoint_history :=
  foldl_update_error_count_history _ _

theorem test_page_navigation_history (r : HttpResult) (s : Session) :
    (test_page_navigation r s).2.1.checkpoint_history = s.checkpoint_history :=
  foldl_update_error_count_history _ _

theorem test_page_functionality_history (p : String) (r : HttpResult) (s : Session) :
    (test_page_functionality p r s).2.1.checkpoint_history = s.checkpoint_history :=
  foldl_update_error_count_history _ _

theorem test_error_handling_history (r1 r2 : HttpResult) (s : Session) :
    (test_error_handling r1 r2 s).2.1.checkpoint_history = s.checkpoint_history :=
  foldl_update_error_count_history _ _

theorem test_error_handling_ok (r1 r2 : HttpResult) (s : Session) :
    (test_error_handling r1 r2 s).2.2 = true := rfl

theorem create_checkpoint_history (p st ts : String) (fs : FSState) :
    (create_checkpoint p st ts fs).2.session.checkpoint_history
      = fs.session.checkpoint_history
        ++ [{ id := (create_checkpoint p st ts fs).1, timestamp := ts, ckType := "MACRO",
              page := some p, phase := some "complete", status := st }] := by
  simp only [create_checkpoint]
  split <;> rfl

theorem create_micro_checkpoint_history (p ph st ts : String) (fs : FSState) :
    (create_micro_checkpoint p ph st ts fs).2.session.checkpoint_history
      = fs.session.checkpoint_history
        ++ [{ id := (create_micro_checkpoint p ph st ts fs).1, timestamp := ts,
              ckType := "MICRO", page := some p, phase := some ph, status := st }] := rfl

/-- Claim C8: `test_error_handling` returns success for every combination
of responses, so the orchestrator branch that would record an
`error_handling_complete` WARNING micro checkpoint is unreachable: every
record the audit of a page adds to `checkpoint_history` is either
pre-existing or is not such a WARNING record. -/
theorem error_handling_always_success :
    (∀ (r1 r2 : HttpResult) (s : Session), (test_error_handling r1 r2 s).2.2 = true)
    ∧ (∀ (env : PageEnv) (page_name ts : String) (fs : FSState),
        ∀ c ∈ (audit_page_known env page_name ts fs).fs.session.checkpoint_history,
          c ∈ fs.session.checkpoint_history
          ∨ ¬(c.phase = some "error_handling_complete" ∧ c.status = "WARNING")) := by
  refine ⟨test_error_handling_ok, ?_⟩
  intro env page_name ts fs c hc
  simp only [audit_page_known, create_checkpoint_history, create_micro_checkpoint_history,
    test_page_accessibility_history, test_page_navigation_history,
    test_page_functionality_history, test_error_handling_history,
    List.mem_append, List.mem_singleton] at hc
  rcases hc with (((((((((h | h) | h) | h) | h) | h) | h) | h) | h) | h)
  · exact Or.inl h
  all_goals subst h
  all_goals right
  all_goals simp [test_error_handling_ok]

/-- Concrete instance of `audit_page_success_iff` for page `home` on an
all-OK environment. -/
theorem audit_page_success_iff_witness :
    (audit_page
        (⟨.ok 200 100 "", .ok 200 100 "", .ok 200 100 "", .ok 404 50 "", .ok 200 100 ""⟩ : PageEnv)
        "home" "t1" (initialize_session "s0" "t0" [])).2
      = ((test_page_accessibility (.ok 200 100 "")
            (initialize_session "s0" "t0" []).session).2.2
         && (test_page_functionality "home" (.ok 200 100 "")
            (initialize_session "s0" "t0" []).session).2.2) :=
  audit_page_success_iff.2 _ "home" "t1" _ (by decide)

/-- Concrete instance of `error_handling_always_success`: the
initialization record of a fresh session, traced through an audit of page
`home`. -/
theorem error_handling_always_success_witness :
    (test_error_handling (.ok 404 50 "") (.ok 200 100 "")
        (initialize_session "s0" "t0" []).session).2.2 = true
    ∧ ((⟨"CP_000_INIT", "t0", "INITIALIZATION", none, none, "SUCCESS"⟩ : CheckpointInfo)
          ∈ (initialize_session "s0" "t0" []).session.checkpoint_history
        ∨ ¬((⟨"CP_000_INIT", "t0", "INITIALIZATION", none, none, "SUCCESS"⟩ : CheckpointInfo).phase
              = some "error_handling_complete"
            ∧ (⟨"CP_000_INIT", "t0", "INITIALIZATION", none, none,
                "SUCCESS"⟩ : CheckpointInfo).status = "WARNING")) :=
  ⟨error_handling_always_success.1 _ _ _,
   error_handling_always_success.2
     (⟨.ok 200 100 "", .ok 200 100 "", .ok 200 100 "", .ok 404 50 "", .ok 200 100 ""⟩ : PageEnv)
     "home" "t1" (initialize_session "s0" "t0" []) _
     (by
       simp only [audit_page_known, create_checkpoint_history, create_micro_checkpoint_history,
         test_page_accessibility_history, test_page_navigation_history,
         test_page_functionality_history, test_error_handling_history,
         List.mem_append, List.mem_singleton]
       left; left; left; left; left; left; left; left; left
       simp [initialize_session])⟩
